import Mathlib

/-!
# Verification of the MDL `Slider` component (`src/mdl/Slider.tsx`)

A shallow embedding of the control logic of the slider over exact rationals:
props and mutable instance fields become a state record, callbacks and
imperative thumb directives become an explicit list of emitted effects,
and each private method of the class becomes a pure function on the state.

JavaScript numeric quirks that matter here (`Math.round` rounding half
toward positive infinity, the `%` operator truncating toward zero) are
modelled explicitly.  Division by zero yields `0` in `ℚ` where JavaScript
would produce `NaN`/`Infinity`; no theorem below relies on a path where
that difference is observable, except as noted in its doc comment.
-/

namespace Slider

/-- JavaScript `Math.round`: rounds half toward positive infinity. -/
def jsRound (q : ℚ) : ℤ := ⌊q + 1/2⌋

/-- JavaScript truncation toward zero, the rounding used by the `%` operator. -/
def jsTrunc (q : ℚ) : ℤ := if q < 0 then ⌈q⌉ else ⌊q⌋

/-- JavaScript remainder operator `a % b` (the sign follows the dividend). -/
def jsRem (a b : ℚ) : ℚ := a - b * (jsTrunc (a / b) : ℚ)

/-- Module-level constant `THUMB_SCALE_RATIO = 1.3`. -/
def THUMB_SCALE_RATIO : ℚ := 13/10

/-- Module-level constant `THUMB_BORDER_WIDTH = 2`. -/
def THUMB_BORDER_WIDTH : ℚ := 2

/-- Module-level constant `TRACK_EXTRA_MARGIN_V = 5`. -/
def TRACK_EXTRA_MARGIN_V : ℚ := 5

/-- Module-level constant `TRACK_EXTRA_MARGIN_H = 5`. -/
def TRACK_EXTRA_MARGIN_H : ℚ := 5

/-- Props of the `Slider` component that the control logic reads
(`min`, `max`, `value`, `step`, `thumbRadius`, `trackSize`).
Optional props that are absent are modelled as `0`, matching the
`x || default` guards in the source. -/
structure SliderProps where
  min : ℚ
  max : ℚ
  value : ℚ
  step : ℚ
  thumbRadius : ℚ
  trackSize : ℚ
deriving Repr, DecidableEq

/-- The `this.props.step || 1` guard used by the source. -/
def stepOr1 (p : SliderProps) : ℚ := if p.step = 0 then 1 else p.step

/-- Mutable instance fields of the `Slider` class:
`_value`, `_trackMarginH`, `_trackMarginV`, `_trackTotalLength`,
`_thumbRadiiWithBorder`, `_prevPointerX`, plus the (React-managed) props. -/
structure SliderState where
  props : SliderProps
  value : ℚ
  trackMarginH : ℚ
  trackMarginV : ℚ
  trackTotalLength : ℚ
  thumbRadiiWithBorder : ℚ
  prevPointerX : ℚ
deriving Repr, DecidableEq

/-- Observable side effects: the `onChange`, `onPressIn`, `onPressOut`
and `onConfirm` callbacks, and the imperative thumb directives
`moveTo` (together with the zero-duration track animation) and
`confirmMoveTo`. -/
inductive Effect where
  | change (v : ℚ)
  | pressIn
  | pressOut
  | confirm (v : ℚ)
  | moveThumb (x : ℚ)
  | confirmMoveThumb
deriving Repr, DecidableEq

/-- Method `_toSliderScale`: scale a track pixel offset to a value in the
range (`pixelToValue`). -/
def toSliderScale (s : SliderState) (value : ℚ) : ℚ :=
  let trackToRange := (s.props.max - s.props.min) / s.trackTotalLength
  value * trackToRange + s.props.min

/-- Method `_toPixelScale`: scale a value in the range to a track pixel
offset (`valueToPixel`). -/
def toPixelScale (s : SliderState) (value : ℚ) : ℚ :=
  let rangeToTrack := s.trackTotalLength / (s.props.max - s.props.min)
  (value - s.props.min) * rangeToTrack

/-- Method `_defaultStepIncrement`:
`toPixelScale(max) / (max - min) / (step || 1)`. -/
def defaultStepIncrement (s : SliderState) : ℚ :=
  toPixelScale s s.props.max / (s.props.max - s.props.min) / stepOr1 s.props

/-- Method `_snap`: quantize a pixel offset by the pixel increment `inc`. -/
def snap (val inc : ℚ) : ℚ :=
  let current : ℚ := (jsRound val : ℚ)
  let half := inc * (1/2)
  let diff := jsRem current inc
  if half ≤ diff then inc * (jsRound (current / inc) : ℚ)
  else current - diff

/-- Method `_internalSetValue`: store the value if it differs from the
current one and, when `fireChange` is set, emit `onChange`. -/
def internalSetValue (s : SliderState) (value : ℚ) (fireChange : Bool) :
    SliderState × List Effect :=
  if s.value ≠ value then
    ({ s with value := value }, if fireChange then [Effect.change value] else [])
  else (s, [])

/-- Method `_aniUpdateValue`: when the track has a measured length,
reposition the thumb at the pixel offset of `value` and settle it.
The `if (this._trackTotalLength)` truthiness guard is `≠ 0`. -/
def aniUpdateValue (s : SliderState) (value : ℚ) : List Effect :=
  if s.trackTotalLength ≠ 0 then
    let ratio := (value - s.props.min) / (s.props.max - s.props.min)
    let x := ratio * s.trackTotalLength
    [Effect.moveThumb x, Effect.confirmMoveThumb]
  else []

/-- Accessor `set value`: the public external value setter. -/
def setValue (s : SliderState) (v : ℚ) : SliderState × List Effect :=
  let p := internalSetValue s v true
  (p.1, p.2 ++ aniUpdateValue p.1 v)

/-- Method `_getTouchOnTrack`: touch position relative to the track
(clamped to `[0, totalLength]` and snapped) together with its ratio. -/
def getTouchOnTrack (s : SliderState) (evtX : ℚ) : ℚ × ℚ :=
  let x0 := max (evtX - s.trackMarginH) 0
  let x := snap (min x0 s.trackTotalLength) (defaultStepIncrement s)
  (x, x / s.trackTotalLength)

/-- Value computed by `_updateValueByTouch` from a touch at `evtX`:
`ratio * (max - min) + min`. -/
def touchValue (s : SliderState) (evtX : ℚ) : ℚ :=
  (getTouchOnTrack s evtX).2 * (s.props.max - s.props.min) + s.props.min

/-- Method `_updateValueByTouch`: set the value computed from the touch
position (reporting changes in real time) and move the thumb. -/
def updateValueByTouch (s : SliderState) (evtX : ℚ) : SliderState × List Effect :=
  let t := getTouchOnTrack s evtX
  let p := internalSetValue s (touchValue s evtX) true
  (p.1, p.2 ++ [Effect.moveThumb t.1])

/-- Method `_confirmUpdateValueByTouch`: settle the thumb and emit
`onConfirm` with the current stored value. -/
def confirmUpdateValueByTouch (s : SliderState) : List Effect :=
  [Effect.confirmMoveThumb, Effect.confirm s.value]

/-- Tag of a `TouchEvent` (`TOUCH_DOWN` / `TOUCH_MOVE` / `TOUCH_UP` /
`TOUCH_CANCEL`). -/
inductive TouchType where
  | down
  | move
  | up
  | cancel
deriving Repr, DecidableEq

/-- Method `_onTouchEvent`: dispatch on the touch event type. -/
def onTouchEvent (s : SliderState) (t : TouchType) (x : ℚ) :
    SliderState × List Effect :=
  match t with
  | TouchType.down =>
      let p := updateValueByTouch s x
      (p.1, Effect.pressIn :: p.2)
  | TouchType.move => updateValueByTouch s x
  | TouchType.up => (s, Effect.pressOut :: confirmUpdateValueByTouch s)
  | TouchType.cancel => (s, Effect.pressOut :: confirmUpdateValueByTouch s)

/-- Handler `onPanResponderGrant`: record the pointer anchor and dispatch
`TOUCH_DOWN` at it. -/
def onPanResponderGrant (s : SliderState) (locationX : ℚ) :
    SliderState × List Effect :=
  let s1 := { s with prevPointerX := locationX }
  onTouchEvent s1 TouchType.down s1.prevPointerX

/-- Handler `onPanResponderMove`: dispatch `TOUCH_MOVE` at the anchor plus
the cumulative delta of the gesture (the anchor itself is not advanced). -/
def onPanResponderMove (s : SliderState) (dx : ℚ) : SliderState × List Effect :=
  onTouchEvent s TouchType.move (s.prevPointerX + dx)

/-- Method `_onPanResponderEnd`: on release advance the anchor by the
delta of the gesture and dispatch `TOUCH_UP`; on termination keep the anchor
as-is and dispatch `TOUCH_CANCEL`. -/
def onPanResponderEnd (s : SliderState) (dx : ℚ) (cancelled : Bool) :
    SliderState × List Effect :=
  let s1 := if cancelled then s else { s with prevPointerX := s.prevPointerX + dx }
  onTouchEvent s1 (if cancelled then TouchType.cancel else TouchType.up)
    s1.prevPointerX

/-- Handler `_onTrackLayout`: when the reported track width differs from
the stored one, store it and re-run `_aniUpdateValue` for the current
value. -/
def onTrackLayout (s : SliderState) (width : ℚ) : SliderState × List Effect :=
  if s.trackTotalLength ≠ width then
    let s1 := { s with trackTotalLength := width }
    (s1, aniUpdateValue s1 s1.value)
  else (s, [])

/-- Method `_onThumbRadiiUpdate`: recompute the thumb radius with border
and the track margins from the props. -/
def onThumbRadiiUpdate (s : SliderState) (p : SliderProps) : SliderState :=
  let r := (if p.thumbRadius = 0 then 6 else p.thumbRadius) + THUMB_BORDER_WIDTH
  { s with
    thumbRadiiWithBorder := r
    trackMarginV := r * THUMB_SCALE_RATIO + TRACK_EXTRA_MARGIN_V -
      (if p.trackSize = 0 then 2 else p.trackSize) / 2
    trackMarginH := r * THUMB_SCALE_RATIO + TRACK_EXTRA_MARGIN_H }

/-- Method `_verifyStep`: the render-time configuration check; `true`
means the check throws (`max / (step || 1)` has a nonzero remainder
modulo 1, i.e. is not an integer). -/
def verifyStepThrows (p : SliderProps) : Bool :=
  decide (jsRem (p.max / stepOr1 p) 1 ≠ 0)

/-- Method `render`, reduced to its only observable control effect for
this model: it calls `_verifyStep` first and throws the configuration
error when the step does not evenly divide `max`. -/
def render (s : SliderState) : Except String Unit :=
  if verifyStepThrows s.props then
    Except.error "Given step must be a divisor of max"
  else Except.ok ()

/-- Construction plus `UNSAFE_componentWillMount`: fields start at `0`,
the margins are derived from the props and the initial value is stored
without firing `onChange`. -/
def initState (p : SliderProps) : SliderState :=
  let s0 : SliderState :=
    { props := p, value := 0, trackMarginH := 0, trackMarginV := 0,
      trackTotalLength := 0, thumbRadiiWithBorder := 0, prevPointerX := 0 }
  let s1 := onThumbRadiiUpdate s0 p
  (internalSetValue s1 p.value false).1

/-- Driver events: the pan-responder callbacks, a layout report and an
external assignment through the public value setter. -/
inductive GestureEv where
  | grant (locationX : ℚ)
  | move (dx : ℚ)
  | release (dx : ℚ)
  | terminate (dx : ℚ)
  | layout (width : ℚ)
  | assign (v : ℚ)
deriving Repr

/-- Process one driver event. -/
def stepEv (s : SliderState) : GestureEv → SliderState × List Effect
  | GestureEv.grant x => onPanResponderGrant s x
  | GestureEv.move dx => onPanResponderMove s dx
  | GestureEv.release dx => onPanResponderEnd s dx false
  | GestureEv.terminate dx => onPanResponderEnd s dx true
  | GestureEv.layout w => onTrackLayout s w
  | GestureEv.assign v => setValue s v

/-- Process a list of driver events, concatenating the emitted effects. -/
def runEvents (s : SliderState) : List GestureEv → SliderState × List Effect
  | [] => (s, [])
  | e :: es =>
      let p := stepEv s e
      let q := runEvents p.1 es
      (q.1, p.2 ++ q.2)

/-- Values carried by the `onChange` effects of a trace. -/
def changeValues (es : List Effect) : List ℚ :=
  es.filterMap fun e =>
    match e with
    | Effect.change v => some v
    | _ => none

/-- Values carried by the `onConfirm` effects of a trace. -/
def confirmValues (es : List Effect) : List ℚ :=
  es.filterMap fun e =>
    match e with
    | Effect.confirm v => some v
    | _ => none

/-- The default props: `min = 0`, `max = 100`, `value = 0`, `step = 1`,
`thumbRadius = 6`, `trackSize = 2`. -/
def props100 : SliderProps :=
  { min := 0, max := 100, value := 0, step := 1, thumbRadius := 6, trackSize := 2 }

/-- A freshly mounted default slider after its first layout measurement
reported a 100 px track. -/
def s100 : SliderState := (onTrackLayout (initState props100) 100).1

/-- The default slider as freshly mounted, before any layout measurement
(`_trackTotalLength = 0`). -/
theorem mounted100_eq :
    initState props100 =
      { props := props100, value := 0, trackMarginH := 77/5, trackMarginV := 72/5,
        trackTotalLength := 0, thumbRadiiWithBorder := 8, prevPointerX := 0 } := by
  simp only [initState, onThumbRadiiUpdate, internalSetValue,
    THUMB_SCALE_RATIO, THUMB_BORDER_WIDTH, TRACK_EXTRA_MARGIN_V, TRACK_EXTRA_MARGIN_H,
    props100]
  norm_num

theorem s100_eq :
    s100 =
      { props := props100, value := 0, trackMarginH := 77/5, trackMarginV := 72/5,
        trackTotalLength := 100, thumbRadiiWithBorder := 8, prevPointerX := 0 } := by
  rw [s100, mounted100_eq]
  simp only [onTrackLayout, aniUpdateValue]
  norm_num

/-! ## Basic facts about the JavaScript rounding helpers -/

theorem jsRound_le (q : ℚ) : (jsRound q : ℚ) ≤ q + 1/2 := Int.floor_le _

theorem lt_jsRound (q : ℚ) : q - 1/2 < (jsRound q : ℚ) := by
  have h := Int.lt_floor_add_one (q + 1/2)
  unfold jsRound
  push_cast at h ⊢
  linarith

theorem jsRound_eq_iff {q : ℚ} {n : ℤ} :
    jsRound q = n ↔ (n : ℚ) ≤ q + 1/2 ∧ q + 1/2 < n + 1 :=
  Int.floor_eq_iff

theorem jsRound_intCast (n : ℤ) : jsRound (n : ℚ) = n := by
  rw [jsRound_eq_iff]
  constructor <;> norm_num

theorem jsRound_nonneg (q : ℚ) (h : 0 ≤ q) : 0 ≤ jsRound q :=
  Int.floor_nonneg.mpr (by linarith)

theorem jsRound_mono {a b : ℚ} (h : a ≤ b) : jsRound a ≤ jsRound b :=
  Int.floor_mono (by linarith)

theorem jsTrunc_of_nonneg (q : ℚ) (h : 0 ≤ q) : jsTrunc q = ⌊q⌋ :=
  if_neg (not_lt.mpr h)

theorem jsTrunc_intCast (n : ℤ) : jsTrunc (n : ℚ) = n := by
  unfold jsTrunc
  rcases lt_or_le (n : ℚ) 0 with h | h
  · rw [if_pos h, Int.ceil_intCast]
  · rw [if_neg (not_lt.mpr h), Int.floor_intCast]

/-! ## The snap function as nearest-multiple rounding

For a nonnegative input and positive increment, `_snap` returns
`inc * round(round(val) / inc)` with JavaScript rounding. -/

theorem snap_eq (val inc : ℚ) (hv : 0 ≤ val) (hinc : 0 < inc) :
    snap val inc = inc * (jsRound ((jsRound val : ℚ) / inc) : ℚ) := by
  have hc0 : (0 : ℚ) ≤ (jsRound val : ℚ) := by exact_mod_cast jsRound_nonneg val hv
  have hdiv0 : (0 : ℚ) ≤ (jsRound val : ℚ) / inc := div_nonneg hc0 hinc.le
  simp only [snap, jsRem]
  rw [jsTrunc_of_nonneg _ hdiv0]
  have h1 : (⌊(jsRound val : ℚ) / inc⌋ : ℚ) ≤ (jsRound val : ℚ) / inc := Int.floor_le _
  have h2 : (jsRound val : ℚ) / inc < ⌊(jsRound val : ℚ) / inc⌋ + 1 := Int.lt_floor_add_one _
  by_cases hbr :
      inc * (1/2) ≤ (jsRound val : ℚ) - inc * (⌊(jsRound val : ℚ) / inc⌋ : ℚ)
  · rw [if_pos hbr]
  · rw [if_neg hbr]
    push_neg at hbr
    have hkey : jsRound ((jsRound val : ℚ) / inc) = ⌊(jsRound val : ℚ) / inc⌋ := by
      rw [jsRound_eq_iff]
      constructor
      · linarith
      · have : (jsRound val : ℚ) / inc < (⌊(jsRound val : ℚ) / inc⌋ : ℚ) + 1/2 := by
          rw [div_lt_iff hinc]
          nlinarith
        linarith
    rw [hkey]
    ring

theorem snap_nonneg (val inc : ℚ) (hv : 0 ≤ val) (hinc : 0 < inc) :
    0 ≤ snap val inc := by
  rw [snap_eq val inc hv hinc]
  have hc0 : (0 : ℚ) ≤ (jsRound val : ℚ) := by exact_mod_cast jsRound_nonneg val hv
  have : (0 : ℚ) ≤ (jsRound ((jsRound val : ℚ) / inc) : ℚ) := by
    exact_mod_cast jsRound_nonneg _ (div_nonneg hc0 hinc.le)
  exact mul_nonneg hinc.le this

/-- Rounding the quantized point `inc * round(c / inc)` and re-quantizing
recovers the original multiplier: the key step for snap idempotence. -/
theorem jsRound_rescale (inc : ℚ) (hinc : 0 < inc) (c : ℤ) :
    jsRound ((jsRound (inc * (jsRound ((c : ℚ) / inc) : ℚ)) : ℚ) / inc) =
      jsRound ((c : ℚ) / inc) := by
  have hr1 : (c : ℚ) / inc - 1/2 < (jsRound ((c : ℚ) / inc) : ℚ) := lt_jsRound _
  have hr2 : (jsRound ((c : ℚ) / inc) : ℚ) ≤ (c : ℚ) / inc + 1/2 := jsRound_le _
  obtain ⟨r, hR⟩ : ∃ r, jsRound ((c : ℚ) / inc) = r := ⟨_, rfl⟩
  rw [hR] at hr1 hr2 ⊢
  have hb1 : inc * (r : ℚ) - 1/2 < (jsRound (inc * (r : ℚ)) : ℚ) := lt_jsRound _
  have hb2 : (jsRound (inc * (r : ℚ)) : ℚ) ≤ inc * (r : ℚ) + 1/2 := jsRound_le _
  rcases lt_or_le inc 1 with hlt | hge
  · -- increment below one pixel: rounding the quantized point recovers `c`
    have hy1 : (c : ℚ) - inc * (1/2) < inc * (r : ℚ) := by
      have h := (div_lt_iff hinc).mp (by linarith : (c : ℚ) / inc < (r : ℚ) + 1/2)
      nlinarith
    have hy2 : inc * (r : ℚ) ≤ (c : ℚ) + inc * (1/2) := by
      have h := (le_div_iff hinc).mp (by linarith : (r : ℚ) - 1/2 ≤ (c : ℚ) / inc)
      nlinarith
    have hcc : jsRound (inc * (r : ℚ)) = c := by
      rw [jsRound_eq_iff]
      constructor
      · linarith
      · linarith
    rw [hcc, hR]
  · rcases eq_or_lt_of_le hge with heq | hgt
    · -- increment exactly one pixel: the quantized point is the integer `r`
      rw [← heq, one_mul, jsRound_intCast, div_one, jsRound_intCast]
    · -- increment above one pixel: the rounded quantized point stays within
      -- half an increment, so dividing and rounding recovers `r`
      rw [jsRound_eq_iff]
      constructor
      · have hle : ((r : ℚ) - 1/2) * inc ≤ (jsRound (inc * (r : ℚ)) : ℚ) := by nlinarith
        have h2 := (le_div_iff hinc).mpr hle
        linarith
      · have hlt2 : (jsRound (inc * (r : ℚ)) : ℚ) < ((r : ℚ) + 1/2) * inc := by nlinarith
        have h2 := (div_lt_iff hinc).mpr hlt2
        linarith

theorem snap_idem (val inc : ℚ) (hv : 0 ≤ val) (hinc : 0 < inc) :
    snap (snap val inc) inc = snap val inc := by
  have hc0 : (0 : ℚ) ≤ (jsRound val : ℚ) := by exact_mod_cast jsRound_nonneg val hv
  have hr0 : (0 : ℚ) ≤ (jsRound ((jsRound val : ℚ) / inc) : ℚ) := by
    exact_mod_cast jsRound_nonneg _ (div_nonneg hc0 hinc.le)
  have hy0 : (0 : ℚ) ≤ inc * (jsRound ((jsRound val : ℚ) / inc) : ℚ) :=
    mul_nonneg hinc.le hr0
  rw [snap_eq val inc hv hinc, snap_eq _ inc hy0 hinc, jsRound_rescale inc hinc _]

/-- Positivity of the configured step increment. -/
theorem defaultStepIncrement_pos (s : SliderState)
    (hrange : s.props.min < s.props.max) (hstep : 0 < s.props.step)
    (hL : 0 < s.trackTotalLength) : 0 < defaultStepIncrement s := by
  have hd : 0 < s.props.max - s.props.min := sub_pos.mpr hrange
  unfold defaultStepIncrement toPixelScale stepOr1
  rw [if_neg (ne_of_gt hstep)]
  exact div_pos (div_pos (mul_pos hd (div_pos hL hd)) hd) hstep

/-- A mounted slider with `step = 4`, track length 100. -/
def props4 : SliderProps := { props100 with step := 4 }

/-- The `step = 4` slider after its first layout measurement. -/
def s4 : SliderState := (onTrackLayout (initState props4) 100).1

theorem mounted4_eq :
    initState props4 =
      { props := props4, value := 0, trackMarginH := 77/5, trackMarginV := 72/5,
        trackTotalLength := 0, thumbRadiiWithBorder := 8, prevPointerX := 0 } := by
  simp only [initState, onThumbRadiiUpdate, internalSetValue,
    THUMB_SCALE_RATIO, THUMB_BORDER_WIDTH, TRACK_EXTRA_MARGIN_V, TRACK_EXTRA_MARGIN_H,
    props4, props100]
  norm_num

theorem s4_eq :
    s4 =
      { props := props4, value := 0, trackMarginH := 77/5, trackMarginV := 72/5,
        trackTotalLength := 100, thumbRadiiWithBorder := 8, prevPointerX := 0 } := by
  rw [s4, mounted4_eq]
  simp only [onTrackLayout, aniUpdateValue]
  norm_num

/-- Claim C7: for every `v` in `[min, max]`, once `totalLengthPx > 0`, the
round trip `pixelToValue(valueToPixel(v))` equals `v` exactly over exact
rational arithmetic. -/
theorem C7_round_trip (s : SliderState) (v : ℚ)
    (hL : 0 < s.trackTotalLength) (hrange : s.props.min < s.props.max)
    (hlo : s.props.min ≤ v) (hhi : v ≤ s.props.max) :
    toSliderScale s (toPixelScale s v) = v := by
  have h1 : s.trackTotalLength ≠ 0 := ne_of_gt hL
  have h2 : s.props.max - s.props.min ≠ 0 := sub_ne_zero.mpr (ne_of_gt hrange)
  simp only [toSliderScale, toPixelScale]
  field_simp

theorem C7_round_trip_witness :
    toSliderScale s100 (toPixelScale s100 40) = 40 :=
  C7_round_trip s100 40 (by rw [s100_eq]; norm_num)
    (by rw [s100_eq]; norm_num [props100]) (by rw [s100_eq]; norm_num [props100])
    (by rw [s100_eq]; norm_num [props100])

/-- Claim C2 counterexample: with `min = 0`, `max = 100`, `step = 4` and
`totalLengthPx = 100`, the increment the code computes, `valueToPixel(max) / (max -
min) / step` is `1/4` px, while the width of one step in pixels,
`step * totalLengthPx / (max - min)`, is `4` px. -/
theorem C2_counterexample :
    defaultStepIncrement s4 = 1/4 ∧
    s4.props.step * s4.trackTotalLength / (s4.props.max - s4.props.min) = 4 ∧
    defaultStepIncrement s4 ≠
      s4.props.step * s4.trackTotalLength / (s4.props.max - s4.props.min) := by
  rw [s4_eq]
  norm_num [defaultStepIncrement, toPixelScale, stepOr1, props4, props100]

/-- Claim C2 (amended): for every configuration with `min < max`,
`step > 0` and `totalLengthPx > 0`, the snap increment computed as
`valueToPixel(max) / (max - min) / step` equals
`totalLengthPx / ((max - min) * step)` — the width of one step
**divided by `step²`**; it coincides with the pixel width of one step only
when `step = 1`. -/
theorem C2_step_increment (s : SliderState)
    (hrange : s.props.min < s.props.max) (hstep : 0 < s.props.step)
    (hL : 0 < s.trackTotalLength) :
    defaultStepIncrement s =
      s.trackTotalLength / ((s.props.max - s.props.min) * s.props.step) := by
  have h2 : s.props.max - s.props.min ≠ 0 := sub_ne_zero.mpr (ne_of_gt hrange)
  have hs : s.props.step ≠ 0 := ne_of_gt hstep
  simp only [defaultStepIncrement, toPixelScale, stepOr1, if_neg hs]
  field_simp

theorem C2_step_increment_witness :
    defaultStepIncrement s4 =
      s4.trackTotalLength / ((s4.props.max - s4.props.min) * s4.props.step) :=
  C2_step_increment s4 (by simp [s4_eq, props4, props100])
    (by simp [s4_eq, props4, props100]) (by rw [s4_eq]; norm_num)

/-- Claim C8: the snap function is idempotent on `[0, totalLengthPx]` for
the increment derived from the configured step. -/
theorem C8_snap_idempotent (s : SliderState) (x : ℚ)
    (hrange : s.props.min < s.props.max) (hstep : 0 < s.props.step)
    (hL : 0 < s.trackTotalLength) (hx0 : 0 ≤ x) (hxL : x ≤ s.trackTotalLength) :
    snap (snap x (defaultStepIncrement s)) (defaultStepIncrement s) =
      snap x (defaultStepIncrement s) :=
  snap_idem x _ hx0 (defaultStepIncrement_pos s hrange hstep hL)

theorem C8_snap_idempotent_witness :
    snap (snap (173/5) (defaultStepIncrement s100)) (defaultStepIncrement s100) =
      snap (173/5) (defaultStepIncrement s100) :=
  C8_snap_idempotent s100 (173/5) (by simp [s100_eq, props100])
    (by simp [s100_eq, props100]) (by rw [s100_eq]; norm_num)
    (by norm_num) (by rw [s100_eq]; norm_num)

/-- The remainder modulo `1` vanishes exactly on the integers. -/
theorem jsRem_one_eq_zero_iff (d : ℚ) : jsRem d 1 = 0 ↔ ∃ n : ℤ, d = (n : ℚ) := by
  unfold jsRem
  rw [div_one, one_mul]
  constructor
  · intro h
    exact ⟨jsTrunc d, sub_eq_zero.mp h⟩
  · rintro ⟨n, rfl⟩
    rw [jsTrunc_intCast]
    ring

/-- Rendering raises the configuration error iff the step check fires. -/
theorem render_error_iff (s : SliderState) :
    render s = Except.error "Given step must be a divisor of max" ↔
      jsRem (s.props.max / stepOr1 s.props) 1 ≠ 0 := by
  unfold render verifyStepThrows
  by_cases h : jsRem (s.props.max / stepOr1 s.props) 1 ≠ 0
  · simp [h]
  · simp [h]

theorem initState_props (p : SliderProps) : (initState p).props = p := by
  unfold initState internalSetValue onThumbRadiiUpdate
  dsimp only
  split <;> rfl

/-- Claim C6: rendering raises the configuration error exactly when
`max / step` is not an integer; since `render` is a pure function of the
configuration, every render attempt with the same invalid configuration
raises it anew.  In particular `max = 100, step = 3` raises and
`max = 100, step = 4` does not. -/
theorem C6_configuration_error :
    (∀ s : SliderState,
      render s = Except.error "Given step must be a divisor of max" ↔
        ¬ ∃ n : ℤ, s.props.max / stepOr1 s.props = (n : ℚ)) ∧
    render (initState { props100 with step := 3 }) =
      Except.error "Given step must be a divisor of max" ∧
    render (initState { props100 with step := 4 }) = Except.ok () := by
  refine ⟨fun s => ?_, ?_, ?_⟩
  · rw [render_error_iff]
    exact not_congr (jsRem_one_eq_zero_iff _)
  · rw [render_error_iff, initState_props]
    norm_num [jsRem, jsTrunc, stepOr1, props100]
  · unfold render verifyStepThrows
    rw [initState_props]
    norm_num [jsRem, jsTrunc, stepOr1, props100]

/-- Claim C1 counterexample: with the default configuration, a 100 px
track and stored value `0`, assigning `50` through the public external
value setter emits `onChange(50)` and the thumb directives, but **no**
`onConfirm` — the claim asserts the opposite pairing of callbacks. -/
theorem C1_counterexample :
    (setValue s100 50).2 =
      [Effect.change 50, Effect.moveThumb 50, Effect.confirmMoveThumb] ∧
    Effect.confirm 50 ∉ (setValue s100 50).2 ∧
    Effect.change 50 ∈ (setValue s100 50).2 := by
  have h : (setValue s100 50).2 =
      [Effect.change 50, Effect.moveThumb 50, Effect.confirmMoveThumb] := by
    rw [s100_eq]
    norm_num [setValue, internalSetValue, aniUpdateValue, props100]
  refine ⟨h, ?_, ?_⟩ <;> rw [h] <;> simp

/-- Claim C1 (amended): when `totalLengthPx > 0` and the stored value
differs from `50`, assigning `v = 50` through the public external value
setter (range `[0, 100]`) stores `50`, fires `onChange(50)`, repositions
the thumb to the 50% mark of the track and settles it visually
(`confirmMoveTo`), and does **not** fire `onConfirm`. -/
theorem C1_external_set (s : SliderState)
    (hmin : s.props.min = 0) (hmax : s.props.max = 100)
    (hL : 0 < s.trackTotalLength) (hne : s.value ≠ 50) :
    setValue s 50 =
      ({ s with value := 50 },
        [Effect.change 50, Effect.moveThumb (s.trackTotalLength / 2),
          Effect.confirmMoveThumb]) := by
  have hL0 : s.trackTotalLength ≠ 0 := ne_of_gt hL
  unfold setValue internalSetValue aniUpdateValue
  dsimp only
  rw [if_pos hne]
  dsimp only
  rw [if_pos hL0, hmin, hmax]
  norm_num
  ring

theorem C1_external_set_witness :
    setValue s100 50 =
      ({ s100 with value := 50 },
        [Effect.change 50, Effect.moveThumb (s100.trackTotalLength / 2),
          Effect.confirmMoveThumb]) :=
  C1_external_set s100 (by rw [s100_eq]; norm_num [props100])
    (by rw [s100_eq]; norm_num [props100]) (by rw [s100_eq]; norm_num)
    (by rw [s100_eq]; norm_num)

/-- Claim C3 counterexample: on a freshly mounted default slider, with
`totalLengthPx` still `0`, assigning `50` through the public external
value setter stores `50` (the value changes) and fires `onChange(50)` —
the operation is not a no-op as the claim states. -/
theorem C3_counterexample :
    (initState props100).trackTotalLength = 0 ∧
    (initState props100).value = 0 ∧
    (setValue (initState props100) 50).1.value = 50 ∧
    (setValue (initState props100) 50).2 = [Effect.change 50] := by
  rw [mounted100_eq]
  norm_num [setValue, internalSetValue, aniUpdateValue]

/-- Claim C3 (amended): while `totalLengthPx` is `0`, the pixel-dependent
reposition `_aniUpdateValue` is a no-op (no thumb effects at all), but an
external value assignment still stores the assigned value and fires
`onChange` with it whenever it differs from the stored value — only the
thumb reposition is suppressed, not the value update or its callback. -/
theorem C3_zero_length (s : SliderState) (v : ℚ) (hL : s.trackTotalLength = 0) :
    aniUpdateValue s v = [] ∧
    (setValue s v).1.value = v ∧
    (setValue s v).2 = if s.value ≠ v then [Effect.change v] else [] := by
  refine ⟨by simp [aniUpdateValue, hL], ?_, ?_⟩
  · unfold setValue internalSetValue
    dsimp only
    split
    · rfl
    · next h => exact not_not.mp h
  · unfold setValue internalSetValue
    dsimp only
    split <;> rename_i h <;> simp [aniUpdateValue, hL, h]

theorem C3_zero_length_witness :
    aniUpdateValue (initState props100) 50 = [] ∧
    (setValue (initState props100) 50).1.value = 50 ∧
    (setValue (initState props100) 50).2 =
      if (initState props100).value ≠ 50 then [Effect.change 50] else [] :=
  C3_zero_length (initState props100) 50 (by rw [mounted100_eq])

/-- The default slider on a 100 px track after a value of `40` has been
set through the public setter. -/
def s40 : SliderState := (setValue s100 40).1

theorem s40_eq :
    s40 =
      { props := props100, value := 40, trackMarginH := 77/5, trackMarginV := 72/5,
        trackTotalLength := 100, thumbRadiiWithBorder := 8, prevPointerX := 0 } := by
  rw [s40, s100_eq]
  norm_num [setValue, internalSetValue]

/-- Claim C9 counterexample: with a stored track length of 100 and value
`40`, a layout report of width `0` (different from the stored width)
updates the stored length but emits **no** thumb reposition at all (the
`totalLengthPx` truthiness guard in `_aniUpdateValue` suppresses it),
contrary to the unconditional claim "repositions the thumb". -/
theorem C9_counterexample :
    s40.trackTotalLength = 100 ∧ s40.value = 40 ∧
    (onTrackLayout s40 0).1.trackTotalLength = 0 ∧
    (onTrackLayout s40 0).2 = [] := by
  rw [s40_eq]
  norm_num [onTrackLayout, aniUpdateValue]

/-- Claim C9 (amended): when the layout provider reports a track width
different from the stored one and the new width is nonzero, the component
updates the stored length and repositions the thumb to
`valueToPixel(current value)` under the new width, leaving the stored
logical value unchanged and invoking neither `onChange` nor `onConfirm`
(only the thumb directives); a report of an unchanged width changes
nothing, and a report of width `0` only updates the stored length (the
reposition is skipped by the `totalLengthPx` guard). -/
theorem C9_track_layout (s : SliderState) (w : ℚ) :
    onTrackLayout s s.trackTotalLength = (s, []) ∧
    (s.value - s.props.min) / (s.props.max - s.props.min) * w =
      toPixelScale { s with trackTotalLength := w } s.value ∧
    (s.trackTotalLength ≠ w → w ≠ 0 →
      onTrackLayout s w =
        ({ s with trackTotalLength := w },
          [Effect.moveThumb
              ((s.value - s.props.min) / (s.props.max - s.props.min) * w),
            Effect.confirmMoveThumb])) ∧
    (s.trackTotalLength ≠ 0 → onTrackLayout s 0 =
      ({ s with trackTotalLength := 0 }, [])) := by
  refine ⟨by simp [onTrackLayout], ?_, fun hne h0 => ?_, fun hne => ?_⟩
  · simp only [toPixelScale]
    ring
  · unfold onTrackLayout
    rw [if_pos hne]
    dsimp only
    unfold aniUpdateValue
    dsimp only
    rw [if_pos h0]
  · unfold onTrackLayout
    rw [if_pos hne]
    dsimp only
    unfold aniUpdateValue
    simp

theorem C9_track_layout_witness :
    onTrackLayout s40 s40.trackTotalLength = (s40, []) ∧
    onTrackLayout s40 200 =
      ({ s40 with trackTotalLength := 200 },
        [Effect.moveThumb
            ((s40.value - s40.props.min) / (s40.props.max - s40.props.min) * 200),
          Effect.confirmMoveThumb]) :=
  ⟨(C9_track_layout s40 200).1,
   (C9_track_layout s40 200).2.2.1 (by rw [s40_eq]; norm_num) (by norm_num)⟩

/-- Claim C10 counterexample: the public external value setter stores the
assigned value unclamped, so assigning `200` on a default `[0, 100]`
slider leaves the stored value at `200`, outside `[min, max]`. -/
theorem C10_counterexample :
    s100.props.min = 0 ∧ s100.props.max = 100 ∧
    (setValue s100 200).1.value = 200 ∧
    ¬ ((setValue s100 200).1.value ≤ s100.props.max) := by
  rw [s100_eq]
  norm_num [setValue, internalSetValue, props100]

/-- The value stored by `_updateValueByTouch` is exactly the touch value
(also when the equality check suppresses the redundant store). -/
theorem updateValueByTouch_value (s : SliderState) (x : ℚ) :
    (updateValueByTouch s x).1.value = touchValue s x := by
  unfold updateValueByTouch internalSetValue
  dsimp only
  split
  · rfl
  · next h => exact not_not.mp h

/-- The public setter stores the assigned value unconditionally. -/
theorem setValue_stores (s : SliderState) (v : ℚ) :
    (setValue s v).1.value = v := by
  unfold setValue internalSetValue
  dsimp only
  split
  · rfl
  · next h => exact not_not.mp h

theorem getTouchOnTrack_ratio (s : SliderState) (x : ℚ) :
    (getTouchOnTrack s x).2 = (getTouchOnTrack s x).1 / s.trackTotalLength := rfl

/-- Claim C10 (amended): for every configuration with `min < max`,
`step > 0` and `totalLengthPx > 0`, a touch event always leaves the stored
value `≥ min`, and `≤ max` whenever the snapped position does not exceed
`totalLengthPx` (the snap can overshoot the track end by up to half an
increment, so values above `max` are reachable by touch in general); in
the default configuration (`min = 0`, `max = 100`, `step = 1`,
`totalLengthPx = 100`) every touch keeps the value in `[0, 100]`.  The
public external value setter, by contrast, stores the assigned value
unclamped, so external assignments can leave `[min, max]`. -/
theorem C10_value_bounds (s : SliderState) (x v : ℚ)
    (hrange : s.props.min < s.props.max) (hstep : 0 < s.props.step)
    (hL : 0 < s.trackTotalLength) :
    s.props.min ≤ (updateValueByTouch s x).1.value ∧
    ((getTouchOnTrack s x).1 ≤ s.trackTotalLength →
      (updateValueByTouch s x).1.value ≤ s.props.max) ∧
    (setValue s v).1.value = v ∧
    (s.props.min = 0 → s.props.max = 100 → s.props.step = 1 →
      s.trackTotalLength = 100 →
      (updateValueByTouch s x).1.value ≤ 100) := by
  have hinc := defaultStepIncrement_pos s hrange hstep hL
  have ht0 : (0 : ℚ) ≤ min (max (x - s.trackMarginH) 0) s.trackTotalLength :=
    le_min (le_max_right _ _) hL.le
  have hy0 : 0 ≤ (getTouchOnTrack s x).1 := by
    unfold getTouchOnTrack
    dsimp only
    exact snap_nonneg _ _ ht0 hinc
  have hval := updateValueByTouch_value s x
  have hd : 0 < s.props.max - s.props.min := sub_pos.mpr hrange
  refine ⟨?_, ?_, setValue_stores s v, ?_⟩
  · rw [hval]
    unfold touchValue
    rw [getTouchOnTrack_ratio]
    have h1 : 0 ≤ (getTouchOnTrack s x).1 / s.trackTotalLength :=
      div_nonneg hy0 hL.le
    nlinarith
  · intro hle
    rw [hval]
    unfold touchValue
    rw [getTouchOnTrack_ratio]
    have hr1 : (getTouchOnTrack s x).1 / s.trackTotalLength ≤ 1 :=
      (div_le_one hL).mpr hle
    nlinarith
  · intro h0 h100 hstep1 hL100
    rw [hval]
    unfold touchValue
    rw [getTouchOnTrack_ratio]
    have hinc1 : defaultStepIncrement s = 1 := by
      unfold defaultStepIncrement toPixelScale stepOr1
      rw [h0, h100, hstep1, hL100]
      norm_num
    have hyle : (getTouchOnTrack s x).1 ≤ 100 := by
      unfold getTouchOnTrack
      dsimp only
      rw [hinc1, snap_eq _ 1 ht0 one_pos, one_mul, div_one, jsRound_intCast]
      have hmle : min (max (x - s.trackMarginH) 0) s.trackTotalLength ≤
          ((100 : ℤ) : ℚ) := by
        push_cast
        calc min (max (x - s.trackMarginH) 0) s.trackTotalLength
            ≤ s.trackTotalLength := min_le_right _ _
          _ = 100 := hL100
      have h1 := jsRound_mono hmle
      rw [jsRound_intCast] at h1
      exact_mod_cast h1
    rw [h0, h100, hL100]
    norm_num
    exact hyle

theorem C10_value_bounds_witness :
    s100.props.min ≤ (updateValueByTouch s100 1019).1.value ∧
    ((getTouchOnTrack s100 1019).1 ≤ s100.trackTotalLength →
      (updateValueByTouch s100 1019).1.value ≤ s100.props.max) ∧
    (setValue s100 123).1.value = 123 ∧
    (s100.props.min = 0 → s100.props.max = 100 → s100.props.step = 1 →
      s100.trackTotalLength = 100 →
      (updateValueByTouch s100 1019).1.value ≤ 100) :=
  C10_value_bounds s100 1019 123 (by rw [s100_eq]; norm_num [props100])
    (by rw [s100_eq]; norm_num [props100]) (by rw [s100_eq]; norm_num)

/-- Full evaluation of the cancellation scenario
`DOWN(x=20) → MOVE(dx=+30) → CANCEL(dx=+999)` on the default 100 px
slider. -/
theorem cancelTrace_eq :
    runEvents s100 [GestureEv.grant 20, GestureEv.move 30, GestureEv.terminate 999] =
      ({ props := props100, value := 35, trackMarginH := 77/5, trackMarginV := 72/5,
         trackTotalLength := 100, thumbRadiiWithBorder := 8, prevPointerX := 20 },
        [Effect.pressIn, Effect.change 5, Effect.moveThumb 5,
          Effect.change 35, Effect.moveThumb 35,
          Effect.pressOut, Effect.confirmMoveThumb, Effect.confirm 35]) := by
  rw [s100_eq]
  norm_num [runEvents, stepEv, onPanResponderGrant, onPanResponderMove,
    onPanResponderEnd, onTouchEvent, updateValueByTouch, getTouchOnTrack, touchValue,
    confirmUpdateValueByTouch, internalSetValue, defaultStepIncrement, toPixelScale,
    stepOr1, snap, jsRound, jsRem, jsTrunc, props100, min_def, max_def]

/-- Claim C4: a cancelled gesture never advances the pointer anchor by
the delta of the gesture (first conjunct, for every state and delta), and in
the concrete scenario `DOWN(x=20) → MOVE(dx=+30) → CANCEL(dx=+999)` on a
default 100 px slider the anchor stays `20` and the single confirmed
value is the one derived from anchor `20` plus the trusted move delta
(position `20 + 30`, value `35`), not the value the untrusted position
`20 + 999` would give (`100`). -/
theorem C4_cancel_uses_anchor :
    (∀ (s : SliderState) (dx : ℚ),
      (onPanResponderEnd s dx true).1.prevPointerX = s.prevPointerX) ∧
    (runEvents s100 [GestureEv.grant 20, GestureEv.move 30,
        GestureEv.terminate 999]).1.prevPointerX = 20 ∧
    confirmValues (runEvents s100 [GestureEv.grant 20, GestureEv.move 30,
        GestureEv.terminate 999]).2 = [touchValue s100 (20 + 30)] ∧
    touchValue s100 (20 + 30) = 35 ∧
    touchValue s100 (20 + 999) = 100 ∧
    touchValue s100 (20 + 30) ≠ touchValue s100 (20 + 999) := by
  have h35 : touchValue s100 (20 + 30) = 35 := by
    rw [s100_eq]
    norm_num [touchValue, getTouchOnTrack, defaultStepIncrement, toPixelScale,
      stepOr1, snap, jsRound, jsRem, jsTrunc, props100, min_def, max_def]
  have h100 : touchValue s100 (20 + 999) = 100 := by
    rw [s100_eq]
    norm_num [touchValue, getTouchOnTrack, defaultStepIncrement, toPixelScale,
      stepOr1, snap, jsRound, jsRem, jsTrunc, props100, min_def, max_def]
  refine ⟨fun s dx => rfl, ?_, ?_, h35, h100, by rw [h35, h100]; norm_num⟩
  · rw [cancelTrace_eq]
  · rw [cancelTrace_eq, h35]
    simp [confirmValues]

/-- Full evaluation of the drag scenario
`DOWN(x=0) → MOVE(dx=+50) → MOVE(dx=+10) → UP` on the default 100 px
slider. -/
theorem dragTrace_eq :
    runEvents s100 [GestureEv.grant 0, GestureEv.move 50, GestureEv.move 10,
        GestureEv.release 10] =
      ({ props := props100, value := 0, trackMarginH := 77/5, trackMarginV := 72/5,
         trackTotalLength := 100, thumbRadiiWithBorder := 8, prevPointerX := 10 },
        [Effect.pressIn, Effect.moveThumb 0,
          Effect.change 35, Effect.moveThumb 35,
          Effect.change 0, Effect.moveThumb 0,
          Effect.pressOut, Effect.confirmMoveThumb, Effect.confirm 0]) := by
  rw [s100_eq]
  norm_num [runEvents, stepEv, onPanResponderGrant, onPanResponderMove,
    onPanResponderEnd, onTouchEvent, updateValueByTouch, getTouchOnTrack, touchValue,
    confirmUpdateValueByTouch, internalSetValue, defaultStepIncrement, toPixelScale,
    stepOr1, snap, jsRound, jsRem, jsTrunc, props100, min_def, max_def]

/-- Claim C5 counterexample: in the session
`DOWN(x=0) → MOVE(dx=+50) → MOVE(dx=+10) → UP` on a default 100 px slider,
`onChange` fires exactly **2** times (with values `35` then `0`), not 3:
the `TOUCH_DOWN` at `x = 0` computes value `0`, equal to the stored value,
so its live update is suppressed by the equality check, and the values
are not monotonic because each MOVE delta is measured from the DOWN
anchor. -/
theorem C5_counterexample :
    changeValues (runEvents s100 [GestureEv.grant 0, GestureEv.move 50,
        GestureEv.move 10, GestureEv.release 10]).2 = [35, 0] ∧
    (changeValues (runEvents s100 [GestureEv.grant 0, GestureEv.move 50,
        GestureEv.move 10, GestureEv.release 10]).2).length ≠ 3 := by
  refine ⟨?_, ?_⟩ <;> rw [dragTrace_eq] <;> simp [changeValues]

/-- Claim C5 (amended): in the session
`DOWN(x=0) → MOVE(dx=+50) → MOVE(dx=+10) → UP` on a default 100 px slider
(track margin `15.4` px, each MOVE delta relative to the DOWN anchor),
`onChange` fires exactly 2 times with values `35` then `0` — the DOWN
update is suppressed because the computed value equals the stored one —
and `onConfirm` fires exactly once, after `onPressOut` on UP, with the
value `0` at the final position. -/
theorem C5_drag_session :
    runEvents s100 [GestureEv.grant 0, GestureEv.move 50, GestureEv.move 10,
        GestureEv.release 10] =
      ({ props := props100, value := 0, trackMarginH := 77/5, trackMarginV := 72/5,
         trackTotalLength := 100, thumbRadiiWithBorder := 8, prevPointerX := 10 },
        [Effect.pressIn, Effect.moveThumb 0,
          Effect.change 35, Effect.moveThumb 35,
          Effect.change 0, Effect.moveThumb 0,
          Effect.pressOut, Effect.confirmMoveThumb, Effect.confirm 0]) ∧
    changeValues (runEvents s100 [GestureEv.grant 0, GestureEv.move 50,
        GestureEv.move 10, GestureEv.release 10]).2 = [35, 0] ∧
    confirmValues (runEvents s100 [GestureEv.grant 0, GestureEv.move 50,
        GestureEv.move 10, GestureEv.release 10]).2 = [0] ∧
    (runEvents s100 [GestureEv.grant 0, GestureEv.move 50, GestureEv.move 10,
        GestureEv.release 10]).1.value = 0 := by
  refine ⟨dragTrace_eq, ?_, ?_, ?_⟩ <;> rw [dragTrace_eq] <;>
    simp [changeValues, confirmValues]

end Slider
